import Mathlib

/-!
Verification development for the 12stones backend video-render pipeline.

The definitions below are a shallow embedding of the following source files:
- app/utils/video.py       (resize_image_to_fit, create_slideshow,
                            create_slideshow_with_transitions)
- app/utils/storage.py     (upload_file_to_r2 key generation)
- app/utils/elevenlabs.py  (synthesize_speech)
- app/workers/video_tasks.py (update_video_progress, render_video)
- app/models/video.py      (VideoStatus, the video record columns touched
                            by the render task)

External collaborators (database session, object storage, the ElevenLabs
client, the ffmpeg subprocess) are modelled as an explicit environment of
outcomes; the orchestrator is a pure function from that environment to the
final durable record, the ordered list of persisted progress values, the
ordered list of external effects, and the task result.
-/

/-- `VideoStatus` from app/models/video.py: the only durable status values. -/
inductive VideoStatus where
  | queued
  | rendering
  | completed
  | failed
deriving DecidableEq, Repr

/-- The columns of the `videos` table that `render_video` reads or writes
(app/models/video.py). Timestamps are omitted (no time in the model). -/
structure VideoRecord where
  status : VideoStatus
  render_progress : Nat
  error_message : Option String
  r2_key : Option String
  duration_seconds : Option Nat
  file_size_bytes : Option Nat
  narration_r2_key : Option String
deriving DecidableEq, Repr

/-- A freshly created video record: `queued`, progress 0, no outputs. -/
def initialVideoRecord : VideoRecord :=
  { status := VideoStatus.queued
    render_progress := 0
    error_message := none
    r2_key := none
    duration_seconds := none
    file_size_bytes := none
    narration_r2_key := none }

/-- Content-item media kind (`item.type.value` in the worker loop). -/
inductive MediaKind where
  | photo
  | video
deriving DecidableEq, Repr

/-- One content item as seen by the download loop of `render_video`:
its media kind, its object-storage key, and the environment outcomes of
downloading it (`get_file_from_r2`) and later decoding it
(`PIL.Image.open` inside `resize_image_to_fit`). -/
structure ContentItem where
  kind : MediaKind
  r2Key : String
  downloadOk : Bool
  decodeOk : Bool
deriving DecidableEq, Repr

/-- The error taxonomy of the pipeline. The Python code raises `ValueError`
or `RuntimeError` with distinct messages; each distinct raise site is one
constructor here. -/
inductive RenderError where
  | videoNotFound
  | narrativeNotFound
  | noContent
  | configurationError
  | ttsFailed
  | storageUploadFailed
  | noRenderableContent
  | mediaDecodeError
  | assemblyFailed
deriving DecidableEq, Repr

/-- The human-readable message attached to the durable record
(`video.error_message = str(e)`), per raise site. -/
def RenderError.message : RenderError → String
  | RenderError.videoNotFound => "Video not found"
  | RenderError.narrativeNotFound => "Narrative not found"
  | RenderError.noContent => "No content items found for video"
  | RenderError.configurationError => "ELEVENLABS_API_KEY not configured"
  | RenderError.ttsFailed => "Speech synthesis request failed"
  | RenderError.storageUploadFailed => "Storage upload failed"
  | RenderError.noRenderableContent => "No images could be downloaded for video"
  | RenderError.mediaDecodeError => "Cannot identify or decode image file"
  | RenderError.assemblyFailed => "FFmpeg failed"

/-- External side effects of one render attempt, in order: the outbound
TTS call, object-storage puts and gets, and the ffmpeg render subprocess
invocations. Database reads/writes are not effects here (the durable record
is modelled directly). -/
inductive Effect where
  | ttsCall (voice : String)
  | putObject (key : String)
  | getObject (key : String)
  | renderSlideshow
deriving DecidableEq, Repr

/-- The metadata dict returned by the slideshow builders
(`duration_seconds`, `file_size_bytes`). -/
structure VideoResult where
  duration_seconds : Nat
  file_size_bytes : Nat
deriving DecidableEq, Repr

/- ## app/utils/storage.py -/

/-- `filename.split(".")[-1] if "." in filename else ""`: the characters
after the last dot, or the empty string when the name has no dot. -/
def fileExt (filename : String) : String :=
  if ('.') ∈ filename.data then
    String.mk ((filename.data.reverse.takeWhile (fun c => ¬ c = '.')).reverse)
  else ""

/-- Key generation of `upload_file_to_r2` (app/utils/storage.py lines 58-79):
a fresh `uuid.uuid4()` is drawn on every call (here passed in as `uid`,
the nondeterministic fresh value), and the key is
`folder/uid.ext` when the filename has an extension, else `folder/uid`.
The subsequent `put_object` is an unconditional overwrite. -/
def upload_file_to_r2 (folder : String) (filename : String) (uid : String) : String :=
  let ext := fileExt filename
  if ext = "" then folder ++ "/" ++ uid
  else folder ++ "/" ++ uid ++ "." ++ ext

/- ## app/utils/elevenlabs.py -/

/-- Default ElevenLabs voice used when no voice id is resolved. -/
def DEFAULT_VOICE_ID : String := "pNInz6obpgDQGcFmaJgB"

/-- `effective_voice_id = voice_id or DEFAULT_VOICE_ID` (Python falsiness:
`None` and the empty string both fall back to the default). -/
def effectiveVoice (voiceId : Option String) : String :=
  match voiceId with
  | none => DEFAULT_VOICE_ID
  | some v => if v = "" then DEFAULT_VOICE_ID else v

/-- `synthesize_speech` (app/utils/elevenlabs.py lines 14-44): when no API
key is configured it raises `ValueError("ELEVENLABS_API_KEY not configured")`
before constructing the client, so no network call is made; otherwise the
outbound TTS call happens and either returns the provider bytes or fails.
Returns the effects performed together with the result. -/
def synthesize_speech (apiKey : Option String) (voiceId : Option String)
    (providerOk : Bool) (providerBytes : String) :
    List Effect × Except RenderError String :=
  match apiKey with
  | none => ([], Except.error RenderError.configurationError)
  | some _ =>
    ([Effect.ttsCall (effectiveVoice voiceId)],
      if providerOk then Except.ok providerBytes
      else Except.error RenderError.ttsFailed)

/- ## app/utils/video.py : resize_image_to_fit -/

/-- Source image color modes relevant to `resize_image_to_fit`. -/
inductive ColorMode where
  | RGB
  | RGBA
  | P
  | L
deriving DecidableEq, Repr

/-- A source image as measured by PIL after `Image.open`: pixel dimensions
and color mode. -/
structure SrcImage where
  width : Nat
  height : Nat
  mode : ColorMode
deriving DecidableEq, Repr

/-- The output of `resize_image_to_fit`: the canvas dimensions and mode,
the canvas fill color, and the size and position of the scaled content
pasted onto the canvas. -/
structure NormalizedImage where
  width : Nat
  height : Nat
  mode : ColorMode
  background : Nat × Nat × Nat
  contentW : Nat
  contentH : Nat
  offsetX : Nat
  offsetY : Nat
deriving DecidableEq, Repr

/-- `resize_image_to_fit` (app/utils/video.py lines 12-53). The float
comparison `img_ratio > target_ratio` is `w/h > W/H`, i.e. `w*H > W*h`;
`int(width / img_ratio)` is `⌊W*h/w⌋` and `int(height * img_ratio)` is
`⌊H*w/h⌋`. The scaled content is pasted at `((W-new_w)//2, (H-new_h)//2)`
onto a black `RGB` canvas of exactly `W×H`. -/
def resize_image_to_fit (img : SrcImage) (W : Nat) (H : Nat) : NormalizedImage :=
  let wh :=
    if img.width * H > W * img.height then (W, W * img.height / img.width)
    else (H * img.width / img.height, H)
  { width := W
    height := H
    mode := ColorMode.RGB
    background := (0, 0, 0)
    contentW := wh.1
    contentH := wh.2
    offsetX := (W - wh.1) / 2
    offsetY := (H - wh.2) / 2 }

/- ## app/utils/video.py : create_slideshow timing -/

/-- `duration_per_image = audio_duration / num_images`
(app/utils/video.py line 94). -/
def duration_per_image (soundDuration : ℚ) (numImages : Nat) : ℚ :=
  soundDuration / numImages

/-- The per-segment durations of `create_slideshow`: every one of the
`num_images` segments is encoded with `-t duration_per_image`
(app/utils/video.py lines 110-127). -/
def segmentDurationList (soundDuration : ℚ) (numImages : Nat) : List ℚ :=
  List.replicate numImages (duration_per_image soundDuration numImages)

/-- The `-shortest` mux flag (app/utils/video.py line 145): the output is
truncated to the shorter of the concatenated video track and the narration
track. -/
def muxShortest (videoLen : ℚ) (soundLen : ℚ) : ℚ :=
  min videoLen soundLen

/-- The duration of the file produced by `create_slideshow`: the segments
concatenated in order, muxed with the narration under `-shortest`. -/
def create_slideshow_output_duration (soundDuration : ℚ) (numImages : Nat) : ℚ :=
  muxShortest (segmentDurationList soundDuration numImages).sum soundDuration

/- ## app/utils/video.py : image processing loop, slideshow builders -/

/-- The per-image resize loop shared by `create_slideshow` (lines 100-104)
and `create_slideshow_with_transitions` (lines 228-234): each image is
opened and resized by `resize_image_to_fit` with no per-item error
handling, so the first unreadable image raises and the exception
propagates out of the loop. -/
def processImages : List ContentItem → Except RenderError (List ContentItem)
  | [] => Except.ok []
  | img :: rest =>
    if img.decodeOk then
      match processImages rest with
      | Except.ok out => Except.ok (img :: out)
      | Except.error e => Except.error e
    else Except.error RenderError.mediaDecodeError

/-- The environment of one render attempt: the outcomes of every external
interaction `render_video` performs, in the order the code performs them.
`soundUid` and `videoUid` are the fresh `uuid.uuid4()` values drawn by the
two `upload_file_to_r2` calls. -/
structure Env where
  videoExists : Bool
  narrativeExists : Bool
  videoId : String
  items : List ContentItem
  apiKey : Option String
  voiceId : Option String
  ttsOk : Bool
  ttsBytes : String
  soundUploadOk : Bool
  soundUid : String
  soundDuration : ℚ
  xfadeOk : Bool
  plainOk : Bool
  xfadeResult : VideoResult
  plainResult : VideoResult
  videoUploadOk : Bool
  videoUid : String

/-- `create_slideshow` (app/utils/video.py lines 68-184) at the level of
control flow: empty input raises, the resize loop may raise a decode
error, and the segment-encode plus concat-mux subprocesses either succeed
(producing the probed metadata) or raise. -/
def create_slideshow (env : Env) (imgs : List ContentItem) :
    Except RenderError VideoResult :=
  if imgs = [] then Except.error RenderError.noContent
  else
    match processImages imgs with
    | Except.error e => Except.error e
    | Except.ok _ =>
      if env.plainOk then Except.ok env.plainResult
      else Except.error RenderError.assemblyFailed

/-- `create_slideshow_with_transitions` (app/utils/video.py lines 187-297):
empty input raises; a single image falls through to `create_slideshow`;
`duration_per_image = (audio_duration - transition_duration*(n-1)) / n`
below 1 second falls through to `create_slideshow`; the resize loop may
raise; and an xfade subprocess that exits non-zero falls back to
`create_slideshow` instead of raising. -/
def create_slideshow_with_transitions (env : Env) (imgs : List ContentItem)
    (transitionDuration : ℚ) : Except RenderError VideoResult :=
  if imgs = [] then Except.error RenderError.noContent
  else if imgs.length = 1 then create_slideshow env imgs
  else
    let numImages : ℚ := imgs.length
    let availableTime := env.soundDuration - transitionDuration * (numImages - 1)
    let dpi := availableTime / numImages
    if dpi < 1 then create_slideshow env imgs
    else
      match processImages imgs with
      | Except.error e => Except.error e
      | Except.ok _ =>
        if env.xfadeOk then Except.ok env.xfadeResult
        else create_slideshow env imgs

/- ## app/workers/video_tasks.py -/

/-- `update_video_progress` (app/workers/video_tasks.py lines 18-21): writes
only `video.render_progress`; the `stage` string parameter is unused. -/
def update_video_progress (video : VideoRecord) (progress : Nat)
    (stage : String) : VideoRecord :=
  { video with render_progress := progress }

/-- The outcome of one `render_video` attempt: the durable video record,
the ordered list of progress values persisted to it, the ordered list of
external effects, and the task result. -/
structure Outcome where
  record : VideoRecord
  trace : List Nat
  effects : List Effect
  result : Except RenderError VideoResult
deriving Repr

/-- The `except` block of `render_video` (lines 192-203): the video record
is re-queried and marked `failed` with `error_message = str(e)`, and the
error is re-raised. -/
def failWith (rec : VideoRecord) (tr : List Nat) (eff : List Effect)
    (e : RenderError) : Outcome :=
  { record := { rec with status := VideoStatus.failed
                         error_message := some (RenderError.message e) }
    trace := tr
    effects := eff
    result := Except.error e }

/-- The download loop of `render_video` (lines 117-137): iterate over all
content items with their enumeration index `i`; skip non-photo items;
attempt the storage get for each photo (logged as an effect even when it
fails); on failure log and continue; on success append the image and
persist progress `30 + (i / total) * 10` truncated to an integer.
Returns (downloaded items, persisted progress values, effects). -/
def downloadImages : List ContentItem → Nat → Nat →
    List ContentItem × List Nat × List Effect
  | [], _, _ => ([], [], [])
  | it :: rest, total, i =>
    let r := downloadImages rest total (i + 1)
    if it.kind = MediaKind.photo then
      if it.downloadOk then
        (it :: r.1, (30 + 10 * i / total) :: r.2.1,
          Effect.getObject it.r2Key :: r.2.2)
      else (r.1, r.2.1, Effect.getObject it.r2Key :: r.2.2)
    else r

/-- `render_video` from the point where the downloaded image list is known
(lines 139-190): fail when no image was downloaded; otherwise persist
progress 40, render the slideshow (any raised error is job-fatal), persist
85 and 90, upload the final artifact under a fresh-uuid key, and on success
populate the output columns, set `completed` and progress 100 in one
commit. -/
def renderStage3 (env : Env) (imgs : List ContentItem) (rec : VideoRecord)
    (tr : List Nat) (eff : List Effect) : Outcome :=
  if imgs = [] then failWith rec tr eff RenderError.noRenderableContent
  else
    let rec1 := update_video_progress rec 40 ("rendering_video")
    let tr1 := tr ++ [40]
    let eff1 := eff ++ [Effect.renderSlideshow]
    match create_slideshow_with_transitions env imgs 1 with
    | Except.error e => failWith rec1 tr1 eff1 e
    | Except.ok vres =>
      let rec2 := update_video_progress
        (update_video_progress rec1 85 ("video_complete")) 90 ("uploading")
      let tr2 := tr1 ++ [85, 90]
      let vkey := upload_file_to_r2 ("videos")
        ("video_" ++ env.videoId ++ ".mp4") env.videoUid
      let eff2 := eff1 ++ [Effect.putObject vkey]
      if env.videoUploadOk then
        { record := { rec2 with
            r2_key := some vkey
            duration_seconds := some vres.duration_seconds
            file_size_bytes := some vres.file_size_bytes
            status := VideoStatus.completed
            render_progress := 100 }
          trace := tr2 ++ [100]
          effects := eff2
          result := Except.ok vres }
      else failWith rec2 tr2 eff2 RenderError.storageUploadFailed

/-- `render_video` (app/workers/video_tasks.py lines 24-203). Control flow
in source order: query the video (not found raises before any record
write); set `rendering` and persist progress 0; query the narrative and
the ordered included content items (either missing raises); persist
progress 5; synthesize speech (missing API key raises before any network
call); persist progress 25; upload the narration bytes under a fresh-uuid
key and store `narration_r2_key`; persist progress 30; run the download
loop; then `renderStage3`. Every raise lands in the `except` block
(`failWith`). -/
def renderVideo (env : Env) : Outcome :=
  if env.videoExists then
    let rec1 : VideoRecord :=
      update_video_progress { initialVideoRecord with status := VideoStatus.rendering }
        0 ("preparing")
    if env.narrativeExists then
      if env.items = [] then failWith rec1 [0] [] RenderError.noContent
      else
        let rec2 := update_video_progress rec1 5 ("generating_audio")
        match synthesize_speech env.apiKey env.voiceId env.ttsOk env.ttsBytes with
        | (effT, Except.error e) => failWith rec2 [0, 5] effT e
        | (effT, Except.ok _bytes) =>
          let rec3 := update_video_progress rec2 25 ("audio_complete")
          let akey := upload_file_to_r2 ("narrations")
            ("narration_" ++ env.videoId ++ ".mp3") env.soundUid
          let eff1 := effT ++ [Effect.putObject akey]
          if env.soundUploadOk then
            let rec4 := update_video_progress
              { rec3 with narration_r2_key := some akey } 30 ("downloading_content")
            let dl := downloadImages env.items env.items.length 0
            renderStage3 env dl.1
              { rec4 with render_progress := List.getLastD dl.2.1 30 }
              ([0, 5, 25, 30] ++ dl.2.1) (eff1 ++ dl.2.2)
          else failWith rec3 [0, 5, 25] eff1 RenderError.storageUploadFailed
    else failWith rec1 [0] [] RenderError.narrativeNotFound
  else
    { record := initialVideoRecord
      trace := []
      effects := []
      result := Except.error RenderError.videoNotFound }

/- ## Concrete render environments used to evaluate the model -/

/-- A fully healthy three-photo render attempt with a 9-second narration. -/
def envAllGood : Env :=
  { videoExists := true
    narrativeExists := true
    videoId := "vid-good"
    items := [ContentItem.mk MediaKind.photo ("content/a.jpg") true true,
              ContentItem.mk MediaKind.photo ("content/b.jpg") true true,
              ContentItem.mk MediaKind.photo ("content/c.jpg") true true]
    apiKey := some "key"
    voiceId := none
    ttsOk := true
    ttsBytes := "mp3-bytes"
    soundUploadOk := true
    soundUid := "su-1"
    soundDuration := 9
    xfadeOk := true
    plainOk := true
    xfadeResult := VideoResult.mk 9 1000
    plainResult := VideoResult.mk 8 900
    videoUploadOk := true
    videoUid := "vu-1" }

/-- A healthy attempt except that no ElevenLabs API key is configured. -/
def envMissingKey : Env :=
  { envAllGood with videoId := "vid-nokey", apiKey := none }

/-- A second copy of the missing-key attempt (separate claims evaluate
separate environments). -/
def envMissingKey2 : Env :=
  { envAllGood with videoId := "vid-nokey2", apiKey := none }

/-- A healthy attempt in which the storage download of the second of three
photos fails. -/
def envOneBadDownload : Env :=
  { envAllGood with
    videoId := "vid-baddl"
    items := [ContentItem.mk MediaKind.photo ("content/a.jpg") true true,
              ContentItem.mk MediaKind.photo ("content/b.jpg") false true,
              ContentItem.mk MediaKind.photo ("content/c.jpg") true true] }

/-- A healthy attempt in which the xfade transition subprocess exits
non-zero. -/
def envXfadeFails : Env :=
  { envAllGood with videoId := "vid-xfade", xfadeOk := false }

/-- Equality of fallible results is decidable, allowing the model to be
evaluated on concrete environments. -/
instance {ε α : Type} [DecidableEq ε] [DecidableEq α] : DecidableEq (Except ε α) :=
  fun a b =>
    match a, b with
    | Except.ok x, Except.ok y =>
      if h : x = y then Decidable.isTrue (by rw [h])
      else Decidable.isFalse (by intro hh; cases hh; exact h rfl)
    | Except.error x, Except.error y =>
      if h : x = y then Decidable.isTrue (by rw [h])
      else Decidable.isFalse (by intro hh; cases hh; exact h rfl)
    | Except.ok _, Except.error _ => Decidable.isFalse (by intro hh; cases hh)
    | Except.error _, Except.ok _ => Decidable.isFalse (by intro hh; cases hh)

/- ## Helper lemmas: the download loop -/

/-- The downloaded images are exactly the photo items whose storage get
succeeded, in order. -/
theorem downloadImages_fst (l : List ContentItem) (total : Nat) :
    ∀ i, (downloadImages l total i).1 =
      l.filter (fun it => decide (it.kind = MediaKind.photo) && it.downloadOk) := by
  induction l with
  | nil => intro i; rfl
  | cons it rest ih =>
    intro i
    by_cases hk : it.kind = MediaKind.photo
    · by_cases hd : it.downloadOk
      · simp [downloadImages, hk, hd, List.filter_cons, ih]
      · simp [downloadImages, hk, hd, List.filter_cons, ih]
    · simp [downloadImages, hk, List.filter_cons, ih]

/-- Every persisted progress value of the download loop has the form
`30 + 10*j/total` for some item index `j` in range. -/
theorem downloadImages_trace_mem (l : List ContentItem) (total : Nat) :
    ∀ i x, x ∈ (downloadImages l total i).2.1 →
      ∃ j, i ≤ j ∧ j < i + l.length ∧ x = 30 + 10 * j / total := by
  induction l with
  | nil => intro i x hx; simp [downloadImages] at hx
  | cons it rest ih =>
    intro i x hx
    by_cases hk : it.kind = MediaKind.photo
    · by_cases hd : it.downloadOk
      · simp only [downloadImages, hk, hd, if_true, List.mem_cons] at hx
        rcases hx with hx | hx
        · exact ⟨i, le_refl i, by simp, hx⟩
        · rcases ih (i + 1) x hx with ⟨j, hj1, hj2, hj3⟩
          exact ⟨j, by omega, by simp at hj2 ⊢; omega, hj3⟩
      · simp only [downloadImages, hk, hd, if_true, if_false] at hx
        rcases ih (i + 1) x hx with ⟨j, hj1, hj2, hj3⟩
        exact ⟨j, by omega, by simp at hj2 ⊢; omega, hj3⟩
    · simp only [downloadImages, hk, if_false] at hx
      rcases ih (i + 1) x hx with ⟨j, hj1, hj2, hj3⟩
      exact ⟨j, by omega, by simp at hj2 ⊢; omega, hj3⟩

/-- The persisted progress values of the download loop are non-decreasing. -/
theorem downloadImages_trace_pairwise (l : List ContentItem) (total : Nat) :
    ∀ i, ((downloadImages l total i).2.1).Pairwise (· ≤ ·) := by
  induction l with
  | nil => intro i; simp [downloadImages]
  | cons it rest ih =>
    intro i
    by_cases hk : it.kind = MediaKind.photo
    · by_cases hd : it.downloadOk
      · simp only [downloadImages, hk, hd, if_true]
        refine List.pairwise_cons.mpr ⟨?_, ih (i + 1)⟩
        intro x hx
        rcases downloadImages_trace_mem rest total (i + 1) x hx with ⟨j, hj1, _, hj3⟩
        subst hj3
        have : 10 * i ≤ 10 * j := by omega
        exact Nat.add_le_add_left (Nat.div_le_div_right this) 30
      · simpa [downloadImages, hk, hd] using ih (i + 1)
    · simpa [downloadImages, hk] using ih (i + 1)

/-- With the loop run as the worker runs it (`i = 0`,
`total = l.length`), every persisted progress value lies in `[30, 39]`. -/
theorem downloadImages_trace_bounds (l : List ContentItem) :
    ∀ x ∈ (downloadImages l l.length 0).2.1, 30 ≤ x ∧ x ≤ 39 := by
  intro x hx
  rcases downloadImages_trace_mem l l.length 0 x hx with ⟨j, _, hj2, hj3⟩
  subst hj3
  have hdiv : 10 * j / l.length < 10 := Nat.div_lt_of_lt_mul (by omega)
  refine ⟨Nat.le_add_right 30 _, ?_⟩
  have h39 : (39 : Nat) = 30 + 9 := rfl
  rw [h39]
  exact Nat.add_le_add_left (Nat.lt_succ_iff.mp hdiv) 30

/-- If no image was downloaded then the loop persisted no progress value. -/
theorem downloadImages_trace_nil (l : List ContentItem) (total : Nat) :
    ∀ i, (downloadImages l total i).1 = [] → (downloadImages l total i).2.1 = [] := by
  induction l with
  | nil => intro i _; rfl
  | cons it rest ih =>
    intro i h
    by_cases hk : it.kind = MediaKind.photo
    · by_cases hd : it.downloadOk
      · simp [downloadImages, hk, hd] at h
      · simpa [downloadImages, hk, hd] using ih (i + 1) (by simpa [downloadImages, hk, hd] using h)
    · simpa [downloadImages, hk] using ih (i + 1) (by simpa [downloadImages, hk] using h)

/-- The last persisted progress value of the download stage (defaulting to
the stage-entry value 30) lies in `[30, 39]`. -/
theorem downloadImages_lastD_bounds (l : List ContentItem) :
    30 ≤ List.getLastD (downloadImages l l.length 0).2.1 30 ∧
      List.getLastD (downloadImages l l.length 0).2.1 30 ≤ 39 := by
  rcases h : (downloadImages l l.length 0).2.1 with _ | ⟨a, tl⟩
  · simp
  · have hmem : (a :: tl).getLast (by simp) ∈ (a :: tl) := List.getLast_mem _
    have := downloadImages_trace_bounds l ((a :: tl).getLast (by simp)) (by rw [h]; exact hmem)
    simpa [List.getLastD_eq_getLast?, List.getLast?_eq_getLast (a :: tl) (by simp)] using this

/- ## Helper lemmas: the resize loop -/

/-- If every image decodes, the resize loop succeeds and keeps all images. -/
theorem processImages_ok (l : List ContentItem)
    (h : ∀ x ∈ l, x.decodeOk = true) : processImages l = Except.ok l := by
  induction l with
  | nil => rfl
  | cons img rest ih =>
    have h1 : img.decodeOk = true := h img (by simp)
    have h2 : processImages rest = Except.ok rest := ih (fun x hx => h x (by simp [hx]))
    simp [processImages, h1, h2]

/-- If any image fails to decode, the resize loop raises `MediaDecodeError`
for the whole list. -/
theorem processImages_error (l : List ContentItem)
    (h : ∃ x ∈ l, x.decodeOk = false) :
    processImages l = Except.error RenderError.mediaDecodeError := by
  induction l with
  | nil => simp at h
  | cons img rest ih =>
    by_cases h1 : img.decodeOk
    · rcases h with ⟨x, hx, hdec⟩
      rcases List.mem_cons.mp hx with rfl | hx'
      · rw [h1] at hdec; cases hdec
      · have := ih ⟨x, hx', hdec⟩
        simp [processImages, h1, this]
    · simp [processImages, Bool.of_not_eq_true h1]

/-- The only error the resize loop can raise is `MediaDecodeError`. -/
theorem processImages_error_shape (l : List ContentItem) (e : RenderError)
    (h : processImages l = Except.error e) : e = RenderError.mediaDecodeError := by
  induction l with
  | nil => simp [processImages] at h
  | cons img rest ih =>
    by_cases h1 : img.decodeOk = true
    · rcases h2 : processImages rest with e' | out
      · simp only [processImages, h1, if_true, h2, Except.error.injEq] at h
        subst h
        exact ih h2
      · simp [processImages, h1, h2] at h
    · simp [processImages, h1] at h
      exact h.symm

/- ## Helper lemmas: slideshow assembly -/

/-- When the input is non-empty, all images decode, and the plain
concat-mux subprocess succeeds, `create_slideshow` succeeds with the
probed plain-assembly metadata. -/
theorem create_slideshow_ok (env : Env) (imgs : List ContentItem)
    (hne : imgs ≠ []) (hdec : ∀ x ∈ imgs, x.decodeOk = true)
    (hp : env.plainOk = true) :
    create_slideshow env imgs = Except.ok env.plainResult := by
  simp [create_slideshow, hne, processImages_ok imgs hdec, hp]

/-- On a non-empty input, the only errors `create_slideshow` can raise are
the decode error and the assembly error. -/
theorem create_slideshow_error_shape (env : Env) (imgs : List ContentItem)
    (e : RenderError) (hne : imgs ≠ [])
    (h : create_slideshow env imgs = Except.error e) :
    e = RenderError.mediaDecodeError ∨ e = RenderError.assemblyFailed := by
  rcases h2 : processImages imgs with e' | out
  · simp only [create_slideshow, hne, if_false, h2, Except.error.injEq] at h
    have hh := processImages_error_shape imgs e' h2
    subst h
    exact Or.inl hh
  · by_cases hp : env.plainOk = true
    · simp [create_slideshow, hne, h2, hp] at h
    · simp only [create_slideshow, hne, if_false, h2] at h
      simp [hp] at h
      exact Or.inr h.symm

/-- On a non-empty input, the only errors
`create_slideshow_with_transitions` can raise are the decode error and the
assembly error; in particular it never raises `NoRenderableContentError`. -/
theorem create_slideshow_with_transitions_error_shape (env : Env)
    (imgs : List ContentItem) (td : ℚ) (e : RenderError) (hne : imgs ≠ [])
    (h : create_slideshow_with_transitions env imgs td = Except.error e) :
    e = RenderError.mediaDecodeError ∨ e = RenderError.assemblyFailed := by
  simp only [create_slideshow_with_transitions, hne, if_false] at h
  by_cases h1 : imgs.length = 1
  · rw [if_pos h1] at h
    exact create_slideshow_error_shape env imgs e hne h
  · rw [if_neg h1] at h
    by_cases h2 : (env.soundDuration - td * ((imgs.length : ℚ) - 1)) / (imgs.length : ℚ) < 1
    · rw [if_pos h2] at h
      exact create_slideshow_error_shape env imgs e hne h
    · rw [if_neg h2] at h
      rcases h3 : processImages imgs with e' | out
      · rw [h3] at h
        have hh := processImages_error_shape imgs e' h3
        cases h
        exact Or.inl hh
      · rw [h3] at h
        by_cases h4 : env.xfadeOk = true
        · simp [h4] at h
        · rw [if_neg h4] at h
          exact create_slideshow_error_shape env imgs e hne h

/-- The transition-variant fallback: when the xfade subprocess fails but
the plain assembly succeeds (non-empty input, all images decodable), the
output is the plain assembly's output. -/
theorem create_slideshow_with_transitions_fallback (env : Env)
    (imgs : List ContentItem) (td : ℚ) (hne : imgs ≠ [])
    (hdec : ∀ x ∈ imgs, x.decodeOk = true) (hx : env.xfadeOk = false)
    (hp : env.plainOk = true) :
    create_slideshow_with_transitions env imgs td =
      Except.ok env.plainResult := by
  have hcs := create_slideshow_ok env imgs hne hdec hp
  simp only [create_slideshow_with_transitions, hne, if_false]
  by_cases h1 : imgs.length = 1
  · simp [h1, hcs]
  · rw [if_neg h1]
    by_cases h2 : (env.soundDuration - td * ((imgs.length : ℚ) - 1)) / (imgs.length : ℚ) < 1
    · simp [h2, hcs]
    · simp [h2, processImages_ok imgs hdec, hx, hcs]

/- ## Helper lemmas: the final render stage -/

/-- Progress invariant of the final stage: starting from a record whose
progress is at most 39 and a persisted-progress history that is
non-decreasing and bounded by 39, the full history stays non-decreasing,
and both the final record progress and the history hit 100 exactly when
the record ends `completed`. -/
theorem renderStage3_progress (env : Env) (imgs : List ContentItem)
    (rec : VideoRecord) (tr : List Nat) (eff : List Effect)
    (hrp : rec.render_progress ≤ 39)
    (htr : tr.Pairwise (· ≤ ·))
    (hb : ∀ x ∈ tr, x ≤ 39) :
    ((renderStage3 env imgs rec tr eff).trace).Pairwise (· ≤ ·)
  ∧ ((renderStage3 env imgs rec tr eff).record.render_progress = 100 ↔
      (renderStage3 env imgs rec tr eff).record.status = VideoStatus.completed)
  ∧ (100 ∈ (renderStage3 env imgs rec tr eff).trace ↔
      (renderStage3 env imgs rec tr eff).record.status = VideoStatus.completed) := by
  by_cases hi : imgs = []
  · refine ⟨by simpa [renderStage3, hi, failWith] using htr, ?_, ?_⟩
    · simp only [renderStage3, hi, if_true, failWith]
      simp
      omega
    · simp only [renderStage3, hi, if_true, failWith]
      simp
      intro h
      have := hb 100 h
      omega
  · simp only [renderStage3, hi, if_false]
    rcases hcr : create_slideshow_with_transitions env imgs 1 with e | v
    · simp only [failWith, update_video_progress]
      refine ⟨?_, ?_, ?_⟩
      · refine List.pairwise_append.mpr ⟨htr, by simp, ?_⟩
        intro a ha b hb'
        simp only [List.mem_singleton] at hb'
        subst hb'
        have := hb a ha
        omega
      · constructor
        · intro h; simp at h
        · intro h; cases h
      · constructor
        · intro h
          rcases List.mem_append.mp h with h' | h'
          · have := hb 100 h'; omega
          · simp at h'
        · intro h; cases h
    · by_cases hu : env.videoUploadOk = true
      · simp only [hu, if_true, update_video_progress]
        refine ⟨?_, by simp, by simp⟩
        simp only [List.append_assoc, List.cons_append, List.nil_append]
        refine List.pairwise_append.mpr ⟨htr, by decide, ?_⟩
        intro a ha b hb'
        have ha' := hb a ha
        simp only [List.mem_cons, List.not_mem_nil, or_false] at hb'
        rcases hb' with rfl | rfl | rfl | rfl <;> omega
      · simp only [hu, if_false, failWith, update_video_progress]
        refine ⟨?_, ?_, ?_⟩
        · simp only [List.append_assoc, List.cons_append, List.nil_append]
          refine List.pairwise_append.mpr ⟨htr, by decide, ?_⟩
          intro a ha b hb'
          have ha' := hb a ha
          simp only [List.mem_cons, List.not_mem_nil, or_false] at hb'
          rcases hb' with rfl | rfl | rfl <;> omega
        · constructor
          · intro h; simp at h
          · intro h; cases h
        · constructor
          · intro h
            simp only [List.append_assoc, List.cons_append, List.nil_append] at h
            rcases List.mem_append.mp h with h' | h'
            · have := hb 100 h'; omega
            · simp at h'
          · intro h; cases h

/-- Output-field invariant of the final stage: starting from a record with
empty output fields, the output columns are populated exactly on the
`completed` exit, and every `failed` exit carries an error message and
empty output columns. -/
theorem renderStage3_fields (env : Env) (imgs : List ContentItem)
    (rec : VideoRecord) (tr : List Nat) (eff : List Effect)
    (h1 : rec.r2_key = none) (h2 : rec.duration_seconds = none)
    (h3 : rec.file_size_bytes = none) :
    ((renderStage3 env imgs rec tr eff).record.status = VideoStatus.failed →
       ((renderStage3 env imgs rec tr eff).record.error_message).isSome = true ∧
       (renderStage3 env imgs rec tr eff).record.r2_key = none ∧
       (renderStage3 env imgs rec tr eff).record.duration_seconds = none ∧
       (renderStage3 env imgs rec tr eff).record.file_size_bytes = none)
  ∧ ((renderStage3 env imgs rec tr eff).record.status = VideoStatus.completed →
       ((renderStage3 env imgs rec tr eff).record.r2_key).isSome = true ∧
       ((renderStage3 env imgs rec tr eff).record.duration_seconds).isSome = true ∧
       ((renderStage3 env imgs rec tr eff).record.file_size_bytes).isSome = true ∧
       (renderStage3 env imgs rec tr eff).record.render_progress = 100)
  ∧ (((renderStage3 env imgs rec tr eff).record.r2_key ≠ none ∨
       (renderStage3 env imgs rec tr eff).record.duration_seconds ≠ none ∨
       (renderStage3 env imgs rec tr eff).record.file_size_bytes ≠ none) →
       (renderStage3 env imgs rec tr eff).record.status = VideoStatus.completed) := by
  by_cases hi : imgs = []
  · simp [renderStage3, hi, failWith, h1, h2, h3]
  · simp only [renderStage3, hi, if_false]
    rcases hcr : create_slideshow_with_transitions env imgs 1 with e | v
    · simp [failWith, update_video_progress, h1, h2, h3]
    · by_cases hu : env.videoUploadOk = true
      · simp [hu, update_video_progress]
      · simp [hu, failWith, update_video_progress, h1, h2, h3]

/- ## Helper lemmas: strings -/

/-- String equality follows from equality of the underlying character
lists. -/
theorem str_ext (a b : String) (h : a.data = b.data) : a = b := by
  cases a
  cases b
  exact congrArg String.mk h

/-- Appending distributes over the underlying character lists. -/
theorem str_data_append (a b : String) : (a ++ b).data = a.data ++ b.data := rfl

/-- C4 (amended): the narration-audio and final-video upload keys are not
stable per job attempt. `upload_file_to_r2` embeds a freshly generated
`uuid.uuid4()` in every key (the filename contributes only the extension),
so re-running the pipeline with identical inputs for the same video id
draws fresh uuids and therefore writes to different keys, accumulating
orphan objects rather than overwriting — although it still never errors
because an object already exists, since `put_object` overwrites
unconditionally. Formally: two calls with the same folder and filename but
different fresh uuids always produce different keys. -/
theorem upload_key_fresh_per_uuid (folder filename u v : String)
    (huv : u ≠ v) :
    upload_file_to_r2 folder filename u ≠ upload_file_to_r2 folder filename v := by
  intro h
  apply huv
  by_cases he : fileExt filename = ""
  · simp only [upload_file_to_r2, he, if_true] at h
    have hd := congrArg String.data h
    simp only [str_data_append, List.append_assoc] at hd
    exact str_ext u v (List.append_cancel_left (List.append_cancel_left hd))
  · simp only [upload_file_to_r2, he, if_false] at h
    have hd := congrArg String.data h
    simp only [str_data_append, List.append_assoc] at hd
    have hd2 := List.append_cancel_left (List.append_cancel_left hd)
    exact str_ext u v (List.append_cancel_right hd2)

/- ## Claim theorems -/

/-- C4 counterexample: the claim says re-running with identical inputs for
the same video id writes to the same key. Evaluating the key generator on
the narration filename of one fixed video id with two different fresh
uuids yields two different keys, so the keys are not stable per attempt. -/
theorem upload_key_not_stable_counterexample :
    upload_file_to_r2 ("narrations") ("narration_123.mp3") ("uuid-aaaa") ≠
      upload_file_to_r2 ("narrations") ("narration_123.mp3") ("uuid-bbbb") := by
  decide

/-- Witness for C4 (amended): two concrete fresh uuids give two concrete
distinct keys for the final-video upload of one fixed video id. -/
theorem upload_key_fresh_per_uuid_witness :
    ("uuid-aaaa" : String) ≠ ("uuid-bbbb") ∧
    upload_file_to_r2 ("videos") ("video_123.mp4") ("uuid-aaaa") ≠
      upload_file_to_r2 ("videos") ("video_123.mp4") ("uuid-bbbb") :=
  ⟨by decide,
    upload_key_fresh_per_uuid ("videos") ("video_123.mp4") ("uuid-aaaa")
      ("uuid-bbbb") (by decide)⟩

/-- C1: `create_slideshow` distributes the narration evenly — every one of
the `n` segments is encoded with duration `audio_duration / n` — and muxes
with `-shortest`, truncating the output to the shorter of the video and
narration tracks. Hence the output duration is at most
`min (sum of segment durations) (audio duration)`, never exceeds the audio
duration at all (a fortiori not by more than one frame), and equals the
audio duration exactly in this timing model. -/
theorem create_slideshow_even_timing (A : ℚ) (n : Nat) (hn : n ≠ 0) :
    (∀ d ∈ segmentDurationList A n, d = duration_per_image A n)
  ∧ duration_per_image A n = A / n
  ∧ create_slideshow_output_duration A n ≤
      min (segmentDurationList A n).sum A
  ∧ create_slideshow_output_duration A n ≤ A
  ∧ create_slideshow_output_duration A n = A := by
  have hn' : (n : ℚ) ≠ 0 := Nat.cast_ne_zero.mpr hn
  have hsum : (segmentDurationList A n).sum = A := by
    simp only [segmentDurationList, duration_per_image, List.sum_replicate]
    rw [nsmul_eq_mul, mul_comm, div_mul_cancel₀ A hn']
  refine ⟨?_, rfl, le_refl _, ?_, ?_⟩
  · intro d hd
    exact List.eq_of_mem_replicate hd
  · exact min_le_right _ _
  · unfold create_slideshow_output_duration muxShortest
    rw [hsum]
    exact min_self A

/-- Witness for C1: three images and a 9-second narration give a
9-second output (each segment being 9/3 = 3 seconds by the theorem). -/
theorem create_slideshow_even_timing_witness :
    (3 : Nat) ≠ 0 ∧ create_slideshow_output_duration 9 3 = 9 :=
  ⟨by decide, (create_slideshow_even_timing 9 3 (by decide)).2.2.2.2⟩

/-- C7: for every source image with positive dimensions, the normalizer
outputs a canvas of exactly `W×H` in 3-channel opaque `RGB` mode with a
black background (transparency flattened onto black by the `RGB`
conversion); the scaled content fits the canvas, its aspect ratio matches
the source to within one pixel of rounding
(`contentW*h` and `contentH*w` differ by less than one source pixel row or
column in cross-multiplied form), and it is centered to within one pixel
on each axis. -/
theorem resize_image_to_fit_spec (img : SrcImage) (W H : Nat)
    (hw : 0 < img.width) (hh : 0 < img.height) :
    (resize_image_to_fit img W H).width = W
  ∧ (resize_image_to_fit img W H).height = H
  ∧ (resize_image_to_fit img W H).mode = ColorMode.RGB
  ∧ (resize_image_to_fit img W H).background = (0, 0, 0)
  ∧ (resize_image_to_fit img W H).contentW ≤ W
  ∧ (resize_image_to_fit img W H).contentH ≤ H
  ∧ (resize_image_to_fit img W H).contentW * img.height <
      (resize_image_to_fit img W H).contentH * img.width + img.width
  ∧ (resize_image_to_fit img W H).contentH * img.width <
      (resize_image_to_fit img W H).contentW * img.height + img.height
  ∧ (resize_image_to_fit img W H).offsetX * 2 +
      (resize_image_to_fit img W H).contentW ≤ W
  ∧ W ≤ (resize_image_to_fit img W H).offsetX * 2 +
      (resize_image_to_fit img W H).contentW + 1
  ∧ (resize_image_to_fit img W H).offsetY * 2 +
      (resize_image_to_fit img W H).contentH ≤ H
  ∧ H ≤ (resize_image_to_fit img W H).offsetY * 2 +
      (resize_image_to_fit img W H).contentH + 1 := by
  by_cases hc : img.width * H > W * img.height
  · simp only [resize_image_to_fit, hc, if_true]
    have hqH : W * img.height / img.width ≤ H := by
      have h1 : W * img.height ≤ img.width * H := le_of_lt hc
      have h2 : W * img.height / img.width ≤ img.width * H / img.width :=
        Nat.div_le_div_right h1
      rwa [Nat.mul_div_cancel_left H hw] at h2
    have hdm := Nat.div_add_mod (W * img.height) img.width
    have hml := Nat.mod_lt (W * img.height) hw
    have hcm : W * img.height / img.width * img.width =
        img.width * (W * img.height / img.width) := Nat.mul_comm _ _
    refine ⟨trivial, trivial, trivial, trivial, le_refl _, hqH,
      ?_, ?_, ?_, ?_, ?_, ?_⟩ <;> omega
  · simp only [resize_image_to_fit, hc, if_false]
    have hc' : img.width * H ≤ W * img.height := le_of_not_lt hc
    have hpW : H * img.width / img.height ≤ W := by
      have h1 : H * img.width ≤ img.height * W := by
        calc H * img.width = img.width * H := Nat.mul_comm _ _
        _ ≤ W * img.height := hc'
        _ = img.height * W := Nat.mul_comm _ _
      have h2 : H * img.width / img.height ≤ img.height * W / img.height :=
        Nat.div_le_div_right h1
      rwa [Nat.mul_div_cancel_left W hh] at h2
    have hdm := Nat.div_add_mod (H * img.width) img.height
    have hml := Nat.mod_lt (H * img.width) hh
    have hcm : H * img.width / img.height * img.height =
        img.height * (H * img.width / img.height) := Nat.mul_comm _ _
    have hwh : H * img.width = img.width * H := Nat.mul_comm _ _
    have hhw : W * img.height = img.height * W := Nat.mul_comm _ _
    refine ⟨trivial, trivial, trivial, trivial, hpW, le_refl _,
      ?_, ?_, ?_, ?_, ?_, ?_⟩ <;> omega

/-- Witness for C7: a 400×300 RGBA source on a 1920×1080 canvas scales to
1440×1080 content, centered, on an RGB canvas of exactly 1920×1080. -/
theorem resize_image_to_fit_spec_witness :
    0 < (SrcImage.mk 400 300 ColorMode.RGBA).width
  ∧ 0 < (SrcImage.mk 400 300 ColorMode.RGBA).height
  ∧ (resize_image_to_fit (SrcImage.mk 400 300 ColorMode.RGBA) 1920 1080).width = 1920
  ∧ (resize_image_to_fit (SrcImage.mk 400 300 ColorMode.RGBA) 1920 1080).height = 1080
  ∧ (resize_image_to_fit (SrcImage.mk 400 300 ColorMode.RGBA) 1920 1080).mode =
      ColorMode.RGB :=
  ⟨by decide, by decide,
    (resize_image_to_fit_spec (SrcImage.mk 400 300 ColorMode.RGBA) 1920 1080
      (by decide) (by decide)).1,
    (resize_image_to_fit_spec (SrcImage.mk 400 300 ColorMode.RGBA) 1920 1080
      (by decide) (by decide)).2.1,
    (resize_image_to_fit_spec (SrcImage.mk 400 300 ColorMode.RGBA) 1920 1080
      (by decide) (by decide)).2.2.1⟩

/-- C10: a progress update writes only the numeric percentage — the result
is independent of the stage string, `render_progress` is set, and every
other column (status, error message, output key, duration, size, narration
key) is unchanged; moreover the durable status type admits only the four
coarse values `queued`, `rendering`, `completed`, `failed`. -/
theorem update_video_progress_frame :
    (∀ (video : VideoRecord) (progress : Nat) (s t : String),
        update_video_progress video progress s =
          update_video_progress video progress t)
  ∧ (∀ (video : VideoRecord) (progress : Nat) (s : String),
        (update_video_progress video progress s).render_progress = progress
      ∧ (update_video_progress video progress s).status = video.status
      ∧ (update_video_progress video progress s).error_message = video.error_message
      ∧ (update_video_progress video progress s).r2_key = video.r2_key
      ∧ (update_video_progress video progress s).duration_seconds =
          video.duration_seconds
      ∧ (update_video_progress video progress s).file_size_bytes =
          video.file_size_bytes
      ∧ (update_video_progress video progress s).narration_r2_key =
          video.narration_r2_key)
  ∧ (∀ st : VideoStatus, st = VideoStatus.queued ∨ st = VideoStatus.rendering ∨
        st = VideoStatus.completed ∨ st = VideoStatus.failed) := by
  refine ⟨fun v p s t => rfl,
    fun v p s => ⟨rfl, rfl, rfl, rfl, rfl, rfl, rfl⟩, fun st => ?_⟩
  cases st
  · exact Or.inl rfl
  · exact Or.inr (Or.inl rfl)
  · exact Or.inr (Or.inr (Or.inl rfl))
  · exact Or.inr (Or.inr (Or.inr rfl))

/-- Witness for C10: a concrete progress update with two different stage
strings writes the same record, leaving the status column untouched. -/
theorem update_video_progress_frame_witness :
    update_video_progress initialVideoRecord 30 ("downloading_content") =
      update_video_progress initialVideoRecord 30 ("another_stage")
  ∧ (update_video_progress initialVideoRecord 30 ("downloading_content")).status =
      initialVideoRecord.status :=
  ⟨update_video_progress_frame.1 initialVideoRecord 30 ("downloading_content")
      ("another_stage"),
    (update_video_progress_frame.2.1 initialVideoRecord 30
      ("downloading_content")).2.1⟩

/-- C3 counterexample: the claim says an unreadable image is excluded and
the render continues with the remaining images. On a two-image list whose
second image is corrupt, the resize loop instead raises
`MediaDecodeError` for the whole list and does not return the remaining
decodable image. -/
theorem decode_failure_not_skipped_counterexample :
    processImages
        [ContentItem.mk MediaKind.photo ("content/good.jpg") true true,
         ContentItem.mk MediaKind.photo ("content/corrupt.jpg") true false] =
      Except.error RenderError.mediaDecodeError
  ∧ processImages
        [ContentItem.mk MediaKind.photo ("content/good.jpg") true true,
         ContentItem.mk MediaKind.photo ("content/corrupt.jpg") true false] ≠
      Except.ok [ContentItem.mk MediaKind.photo ("content/good.jpg") true true] := by
  refine ⟨by decide, by decide⟩

/-- C3 (amended): a decode failure is job-fatal, not per-item. If any image
in the list is unreadable, the resize loop — and with it the plain
slideshow assembly — raises `MediaDecodeError` for the whole render; only
when every image decodes does the loop succeed (and it then keeps every
image). Per-item skip-and-continue applies to storage downloads, not to
decode failures. -/
theorem decode_failure_job_fatal (l : List ContentItem) :
    ((∃ x ∈ l, x.decodeOk = false) →
        processImages l = Except.error RenderError.mediaDecodeError)
  ∧ ((∀ x ∈ l, x.decodeOk = true) → processImages l = Except.ok l)
  ∧ (∀ env : Env, l ≠ [] → (∃ x ∈ l, x.decodeOk = false) →
        create_slideshow env l = Except.error RenderError.mediaDecodeError) := by
  refine ⟨processImages_error l, processImages_ok l, ?_⟩
  intro env hne hex
  simp [create_slideshow, hne, processImages_error l hex]

/-- Witness for C3 (amended): one corrupt image in a singleton list aborts
the loop with `MediaDecodeError`. -/
theorem decode_failure_job_fatal_witness :
    processImages [ContentItem.mk MediaKind.photo ("content/bad.jpg") true false] =
      Except.error RenderError.mediaDecodeError :=
  (decode_failure_job_fatal
      [ContentItem.mk MediaKind.photo ("content/bad.jpg") true false]).1
    (by decide)

/-- C9: with no speech-synthesis credential configured,
`synthesize_speech` fails with the configuration error performing no
network effect at all; consequently a render job whose environment reaches
the audio stage fails there — the durable record ends `failed` with the
configuration message, the attempt performed no external effect whatsoever
(in particular no segment encoding), and the persisted progress history
stops at the `generating_audio` value 5. -/
theorem missing_credential_fails_before_network :
    (∀ (voiceId : Option String) (providerOk : Bool) (providerBytes : String),
        synthesize_speech none voiceId providerOk providerBytes =
          ([], Except.error RenderError.configurationError))
  ∧ (∀ env : Env, env.videoExists = true → env.narrativeExists = true →
        env.items ≠ [] → env.apiKey = none →
        (renderVideo env).result = Except.error RenderError.configurationError
      ∧ (renderVideo env).record.status = VideoStatus.failed
      ∧ (renderVideo env).record.error_message =
          some (RenderError.message RenderError.configurationError)
      ∧ (renderVideo env).effects = []
      ∧ (renderVideo env).trace = [0, 5]) := by
  refine ⟨fun v p b => rfl, ?_⟩
  intro env hv hn hi hk
  simp only [renderVideo, hv, hn, hi, hk, synthesize_speech, if_true, if_false,
    failWith, update_video_progress]
  refine ⟨?_, ?_, ?_, ?_, ?_⟩ <;> trivial

/-- Witness for C9: the concrete missing-key environment fails with the
configuration error, no effects, and a progress history stopping at 5. -/
theorem missing_credential_fails_before_network_witness :
    envMissingKey.apiKey = none
  ∧ (renderVideo envMissingKey).result =
      Except.error RenderError.configurationError
  ∧ (renderVideo envMissingKey).effects = []
  ∧ (renderVideo envMissingKey).trace = [0, 5] :=
  ⟨rfl,
    (missing_credential_fails_before_network.2 envMissingKey rfl rfl
      (by decide) rfl).1,
    (missing_credential_fails_before_network.2 envMissingKey rfl rfl
      (by decide) rfl).2.2.2.1,
    (missing_credential_fails_before_network.2 envMissingKey rfl rfl
      (by decide) rfl).2.2.2.2⟩

/-- C2: within a single render attempt, the sequence of progress values
persisted to the durable record is non-decreasing, and — both for the
final record value and for the persisted history — progress reaches
exactly 100 if and only if the attempt ends in the `completed` terminal
state; an attempt ending `failed` never records 100. -/
theorem render_progress_monotone (env : Env) :
    ((renderVideo env).trace).Pairwise (· ≤ ·)
  ∧ ((renderVideo env).record.render_progress = 100 ↔
      (renderVideo env).record.status = VideoStatus.completed)
  ∧ (100 ∈ (renderVideo env).trace ↔
      (renderVideo env).record.status = VideoStatus.completed) := by
  by_cases hv : env.videoExists = true
  case neg =>
    simp [renderVideo, hv, initialVideoRecord]
  case pos =>
  by_cases hn : env.narrativeExists = true
  case neg =>
    simp [renderVideo, hv, hn, failWith, update_video_progress,
      initialVideoRecord]
  case pos =>
  by_cases hi : env.items = []
  case pos =>
    simp [renderVideo, hv, hn, hi, failWith, update_video_progress,
      initialVideoRecord]
  case neg =>
  rcases hk : env.apiKey with _ | k
  · simp [renderVideo, hv, hn, hi, hk, synthesize_speech, failWith,
      update_video_progress, initialVideoRecord]
  · by_cases ht : env.ttsOk = true
    case neg =>
      simp [renderVideo, hv, hn, hi, hk, ht, synthesize_speech, failWith,
        update_video_progress, initialVideoRecord]
    case pos =>
    by_cases hs : env.soundUploadOk = true
    case neg =>
      simp [renderVideo, hv, hn, hi, hk, ht, hs, synthesize_speech, failWith,
        update_video_progress, initialVideoRecord]
    case pos =>
    simp only [renderVideo, hv, hn, hi, hk, ht, hs, synthesize_speech,
      if_true, if_false]
    refine renderStage3_progress env _ _ _ _ ?_ ?_ ?_
    · simpa using (downloadImages_lastD_bounds env.items).2
    · refine List.pairwise_append.mpr
        ⟨by decide, downloadImages_trace_pairwise env.items env.items.length 0, ?_⟩
      intro a ha b hb'
      have h30 := (downloadImages_trace_bounds env.items b hb').1
      simp only [List.mem_cons, List.not_mem_nil, or_false] at ha
      rcases ha with rfl | rfl | rfl | rfl <;> omega
    · intro x hx
      rcases List.mem_append.mp hx with h' | h'
      · simp only [List.mem_cons, List.not_mem_nil, or_false] at h'
        rcases h' with rfl | rfl | rfl | rfl <;> omega
      · exact (downloadImages_trace_bounds env.items x h').2

/-- Witness for C2: on the concrete all-good environment the persisted
progress history is non-decreasing and hits 100 together with the
`completed` terminal state. -/
theorem render_progress_monotone_witness :
    ((renderVideo envAllGood).trace).Pairwise (· ≤ ·)
  ∧ ((renderVideo envAllGood).record.render_progress = 100 ↔
      (renderVideo envAllGood).record.status = VideoStatus.completed) :=
  ⟨(render_progress_monotone envAllGood).1,
    (render_progress_monotone envAllGood).2.1⟩

/-- C5: in an attempt that reaches the download stage, each photo item
whose storage download fails is simply skipped — the downloaded list is
exactly the ordered photo items whose get succeeded, and the loop itself
never aborts the job — and the job fails with the
no-renderable-content error precisely when zero images were downloaded. -/
theorem download_failures_skipped (env : Env)
    (hv : env.videoExists = true) (hn : env.narrativeExists = true)
    (hi : env.items ≠ []) (hk : (env.apiKey).isSome = true)
    (ht : env.ttsOk = true) (hs : env.soundUploadOk = true) :
    (downloadImages env.items env.items.length 0).1 =
      env.items.filter
        (fun it => decide (it.kind = MediaKind.photo) && it.downloadOk)
  ∧ ((renderVideo env).result = Except.error RenderError.noRenderableContent ↔
      env.items.filter
        (fun it => decide (it.kind = MediaKind.photo) && it.downloadOk) = []) := by
  obtain ⟨k, hk2⟩ := Option.isSome_iff_exists.mp hk
  have hfst := downloadImages_fst env.items env.items.length 0
  refine ⟨hfst, ?_⟩
  simp only [renderVideo, hv, hn, hi, hk2, ht, hs, synthesize_speech,
    if_true, if_false]
  by_cases hf : env.items.filter
      (fun it => decide (it.kind = MediaKind.photo) && it.downloadOk) = []
  · have hnil : (downloadImages env.items env.items.length 0).1 = [] := by
      rw [hfst, hf]
    simp [renderStage3, hnil, failWith, hf]
  · have hne : (downloadImages env.items env.items.length 0).1 ≠ [] := by
      rw [hfst]; exact hf
    simp only [renderStage3, hne, if_false]
    rcases hcr : create_slideshow_with_transitions env
        (downloadImages env.items env.items.length 0).1 1 with e | v
    · rcases create_slideshow_with_transitions_error_shape env _ 1 e hne hcr
        with rfl | rfl
      · simp [failWith, hf]
      · simp [failWith, hf]
    · by_cases hu : env.videoUploadOk = true
      · simp [hu, hf]
      · simp [hu, failWith, hf]

/-- Witness for C5: with three photos of which the second fails to
download, some images remain, so the job does not raise the
no-renderable-content error. -/
theorem download_failures_skipped_witness :
    envOneBadDownload.items ≠ []
  ∧ ((renderVideo envOneBadDownload).result =
        Except.error RenderError.noRenderableContent ↔
      envOneBadDownload.items.filter
        (fun it => decide (it.kind = MediaKind.photo) && it.downloadOk) = []) :=
  ⟨by decide,
    (download_failures_skipped envOneBadDownload rfl rfl (by decide)
      rfl rfl rfl).2⟩

/-- C6: when the transition-effect assembly fails (the xfade subprocess
exits non-zero) but the plain assembly succeeds, the assembler
transparently falls back to the plain no-transition assembly for every
non-empty decodable input, and a job in that situation still produces the
plain output and ends `completed`, not `failed`. -/
theorem transition_failure_falls_back (env : Env)
    (hv : env.videoExists = true) (hn : env.narrativeExists = true)
    (hi : env.items ≠ []) (hk : (env.apiKey).isSome = true)
    (ht : env.ttsOk = true) (hs : env.soundUploadOk = true)
    (hphoto : ∃ it ∈ env.items, it.kind = MediaKind.photo ∧ it.downloadOk = true)
    (hdec : ∀ it ∈ env.items, it.decodeOk = true)
    (hx : env.xfadeOk = false) (hp : env.plainOk = true)
    (hu : env.videoUploadOk = true) :
    (∀ (imgs : List ContentItem) (td : ℚ), imgs ≠ [] →
        (∀ x ∈ imgs, x.decodeOk = true) →
        create_slideshow_with_transitions env imgs td =
          Except.ok env.plainResult)
  ∧ (renderVideo env).result = Except.ok env.plainResult
  ∧ (renderVideo env).record.status = VideoStatus.completed := by
  obtain ⟨k, hk2⟩ := Option.isSome_iff_exists.mp hk
  have hfall : ∀ (imgs : List ContentItem) (td : ℚ), imgs ≠ [] →
      (∀ x ∈ imgs, x.decodeOk = true) →
      create_slideshow_with_transitions env imgs td =
        Except.ok env.plainResult :=
    fun imgs td hne hd =>
      create_slideshow_with_transitions_fallback env imgs td hne hd hx hp
  refine ⟨hfall, ?_⟩
  have hfst := downloadImages_fst env.items env.items.length 0
  have hne : (downloadImages env.items env.items.length 0).1 ≠ [] := by
    rw [hfst]
    rcases hphoto with ⟨it, hit, hph, hdl⟩
    intro hnil
    have hmem : it ∈ env.items.filter
        (fun it => decide (it.kind = MediaKind.photo) && it.downloadOk) :=
      List.mem_filter.mpr ⟨hit, by simp [hph, hdl]⟩
    rw [hnil] at hmem
    simp at hmem
  have hdec' : ∀ x ∈ (downloadImages env.items env.items.length 0).1,
      x.decodeOk = true := by
    intro x hxmem
    rw [hfst] at hxmem
    exact hdec x (List.mem_filter.mp hxmem).1
  have hcr := hfall (downloadImages env.items env.items.length 0).1 1 hne hdec'
  simp only [renderVideo, hv, hn, hi, hk2, ht, hs, synthesize_speech,
    if_true, if_false]
  simp only [renderStage3, hne, if_false, hcr, hu, if_true]
  refine ⟨?_, ?_⟩ <;> trivial

/-- Witness for C6: the concrete xfade-failing environment still completes
and yields the plain assembly's output. -/
theorem transition_failure_falls_back_witness :
    envXfadeFails.xfadeOk = false
  ∧ (renderVideo envXfadeFails).result = Except.ok envXfadeFails.plainResult
  ∧ (renderVideo envXfadeFails).record.status = VideoStatus.completed :=
  ⟨rfl,
    (transition_failure_falls_back envXfadeFails rfl rfl (by decide) rfl rfl
      rfl (by decide) (by decide) rfl rfl rfl).2.1,
    (transition_failure_falls_back envXfadeFails rfl rfl (by decide) rfl rfl
      rfl (by decide) (by decide) rfl rfl rfl).2.2⟩

/-- C8: a failed attempt leaves the durable record `failed` with a
human-readable error message and with all output fields (storage key,
duration, byte size) still empty; the output fields are populated — in the
same commit that sets progress 100 — exactly when the attempt ends
`completed`. -/
theorem failed_render_output_fields (env : Env) :
    ((renderVideo env).record.status = VideoStatus.failed →
        ((renderVideo env).record.error_message).isSome = true
      ∧ (renderVideo env).record.r2_key = none
      ∧ (renderVideo env).record.duration_seconds = none
      ∧ (renderVideo env).record.file_size_bytes = none)
  ∧ ((renderVideo env).record.status = VideoStatus.completed →
        ((renderVideo env).record.r2_key).isSome = true
      ∧ ((renderVideo env).record.duration_seconds).isSome = true
      ∧ ((renderVideo env).record.file_size_bytes).isSome = true
      ∧ (renderVideo env).record.render_progress = 100)
  ∧ (((renderVideo env).record.r2_key ≠ none ∨
        (renderVideo env).record.duration_seconds ≠ none ∨
        (renderVideo env).record.file_size_bytes ≠ none) →
        (renderVideo env).record.status = VideoStatus.completed) := by
  by_cases hv : env.videoExists = true
  case neg =>
    simp [renderVideo, hv, initialVideoRecord]
  case pos =>
  by_cases hn : env.narrativeExists = true
  case neg =>
    simp [renderVideo, hv, hn, failWith, update_video_progress,
      initialVideoRecord]
  case pos =>
  by_cases hi : env.items = []
  case pos =>
    simp [renderVideo, hv, hn, hi, failWith, update_video_progress,
      initialVideoRecord]
  case neg =>
  rcases hk : env.apiKey with _ | k
  · simp [renderVideo, hv, hn, hi, hk, synthesize_speech, failWith,
      update_video_progress, initialVideoRecord]
  · by_cases ht : env.ttsOk = true
    case neg =>
      simp [renderVideo, hv, hn, hi, hk, ht, synthesize_speech, failWith,
        update_video_progress, initialVideoRecord]
    case pos =>
    by_cases hs : env.soundUploadOk = true
    case neg =>
      simp [renderVideo, hv, hn, hi, hk, ht, hs, synthesize_speech, failWith,
        update_video_progress, initialVideoRecord]
    case pos =>
    simp only [renderVideo, hv, hn, hi, hk, ht, hs, synthesize_speech,
      if_true, if_false]
    exact renderStage3_fields env _ _ _ _ rfl rfl rfl

/-- Witness for C8: the concrete missing-key attempt ends `failed` with an
error message present and all output fields empty. -/
theorem failed_render_output_fields_witness :
    (renderVideo envMissingKey2).record.status = VideoStatus.failed
  ∧ (renderVideo envMissingKey2).record.r2_key = none
  ∧ ((renderVideo envMissingKey2).record.error_message).isSome = true :=
  ⟨by decide,
    ((failed_render_output_fields envMissingKey2).1 (by decide)).2.1,
    ((failed_render_output_fields envMissingKey2).1 (by decide)).1⟩
